import Mathlib

/-!
Verification of the rendering and validation logic of
`expect_column_mean_to_be_between.py` and `expect_multicolumn_sum_to_equal.py`.

Numeric rule parameters (bounds, observed means, sums, tolerances) are embedded as
rationals. Optional ("nullable") kwargs are embedded as `Option`; an absent kwarg and an
explicit `None` coincide, exactly as `substitute_none_for_missing` makes them coincide in
the source. Python dictionaries of render parameters are embedded as association lists
with first-match lookup and replace-or-append assignment, which is observationally the
Python dict semantics for string keys. A Python function that can raise is embedded as a
function into `Option`/`Except`.
-/

/-- A value held in a render-parameter mapping (Python dict values). -/
inductive PValue where
  | null
  | str (s : String)
  | num (q : ℚ)
  | bool (b : Bool)
  | strList (l : List String)
deriving DecidableEq

/-- First-match lookup in an association list: Python `d[k]` / `d.get(k)`. -/
def dict_get : List (String × PValue) → String → Option PValue
  | [], _ => none
  | p :: ps, k => if p.1 = k then some p.2 else dict_get ps k

/-- Python `d[k] = v`: replace the binding of `k` in place if present, else append. -/
def dict_set : List (String × PValue) → String → PValue → List (String × PValue)
  | [], k, v => [(k, v)]
  | p :: ps, k, v => if p.1 = k then (k, v) :: ps else p :: dict_set ps k v

/-- Python `d.update(e)`: assign each binding of `e` into `d` in order. -/
def dict_update (d : List (String × PValue)) (e : List (String × PValue)) :
    List (String × PValue) :=
  e.foldl (fun acc p => dict_set acc p.1 p.2) d

/-- Little-endian decimal digits, computed with explicit fuel (fuel `n` suffices for `n`). -/
def nat_digits_aux : Nat → Nat → List Nat
  | 0, _ => []
  | fuel + 1, n => if n = 0 then [] else n % 10 :: nat_digits_aux fuel (n / 10)

/-- Little-endian decimal digits of `n` (empty for `0`). -/
def nat_digits (n : Nat) : List Nat := nat_digits_aux n n

/-- The ASCII character of a decimal digit. -/
def digit_char (d : Nat) : Char := Char.ofNat (48 + d)

/-- Embeds Python `str(n)` for a natural number: its decimal representation. -/
def pyStr (n : Nat) : String :=
  if n = 0 then "0" else ((nat_digits n).reverse.map digit_char).asString

/-- Embeds Python `str(i)` for an integer. -/
def pyStrInt : Int → String
  | Int.ofNat n => pyStr n
  | Int.negSucc n => "-" ++ pyStr (n + 1)

/-- Embeds Python list indexing `l[i]`: negative indices count from the end; an index out
of range raises `IndexError`, embedded as `none`. -/
def py_index (l : List String) (i : Int) : Option String :=
  if 0 ≤ i then l[i.toNat]?
  else if 0 ≤ i + l.length then l[(i + l.length).toNat]? else none

/-- The kwargs of an `ExpectColumnMeanToBeBetween` configuration, after
`substitute_none_for_missing` (absent and `None` coincide). The `condition_parser_value`
field embeds the "condition_parser" kwarg. -/
structure MeanKwargs where
  column : Option String
  min_value : Option ℚ
  max_value : Option ℚ
  row_condition : Option String
  condition_parser_value : Option String
  strict_min : Option Bool
  strict_max : Option Bool
deriving DecidableEq

/-- The runtime configuration consulted by the legacy renderers: only the
"include_column_name" and "styling" entries are read. -/
structure RuntimeConfiguration where
  include_column_name : Option Bool
  styling : Option String
deriving DecidableEq

/-- An `ExpectationValidationResult` as far as the renderers could observe one: the
verdict and the observed value. The prescriptive renderers receive it as their `result`
argument. -/
structure ExpectationValidationResult where
  success : Bool
  observed_value : Option ℚ
deriving DecidableEq

/-- A `RenderedStringTemplateContent` of content-block type "string_template". -/
structure RenderedStringTemplateContent where
  content_block_type : String
  template : String
  params : List (String × PValue)
  styling : Option String
deriving DecidableEq

/-- Modelled from the spec: `_get_strict_min_string` (expectation base class, not under
src/). The spec's strict lower-bound phrase: "strictly greater than". -/
def get_strict_min_string : String := "strictly greater than"

/-- Modelled from the spec: `_get_strict_max_string` (expectation base class, not under
src/). The spec's strict upper-bound phrase: "strictly less than". -/
def get_strict_max_string : String := "strictly less than"

/-- Modelled from the spec: `handle_strict_min_max` (render.util, not under src/). The
lower-bound phrase is "greater than or equal to" unless `strict_min` (then the strict
variant); symmetrically for the upper bound. A strict flag is set when its kwarg is
present and `True`. -/
def handle_strict_min_max (cfg : MeanKwargs) : String × String :=
  ((if cfg.strict_min == some true then "strictly greater than"
    else "greater than or equal to"),
   (if cfg.strict_max == some true then "strictly less than"
    else "less than or equal to"))

/-- Modelled from the spec: truthiness of a rendered numeric parameter of
`RendererConfiguration.params` (renderer_configuration.py, not under src/). The spec
mandates that a `None` bound means "unbounded on that side", while zero is a real bound
("zero and `None` must never be conflated"), so a numeric parameter is truthy exactly
when a value is present. -/
def truthy_num (v : Option ℚ) : Bool := v.isSome

/-- Embeds the `at_least_str` selection of `_prescriptive_template`
(expect_column_mean_to_be_between.py lines 185-189): strict variant iff the
`strict_min` parameter is present and `True` (boolean parameter truthiness modelled
from the spec, renderer_configuration.py not being under src/). -/
def at_least_str (cfg : MeanKwargs) : String :=
  if cfg.strict_min == some true then get_strict_min_string else "greater than or equal to"

/-- Embeds the `at_most_str` selection of `_prescriptive_template`
(expect_column_mean_to_be_between.py lines 190-194). -/
def at_most_str (cfg : MeanKwargs) : String :=
  if cfg.strict_max == some true then get_strict_max_string else "less than or equal to"

/-- Embeds the `template_str` computation of the new-style `_prescriptive_template`
(expect_column_mean_to_be_between.py lines 182-201), before the column-name prefix. -/
def prescriptive_bound_template (cfg : MeanKwargs) : String :=
  if !truthy_num cfg.min_value && !truthy_num cfg.max_value then
    "mean may have any numerical value."
  else if truthy_num cfg.min_value && truthy_num cfg.max_value then
    "mean must be " ++ at_least_str cfg ++ " $min_value and " ++ at_most_str cfg
      ++ " $max_value."
  else if !truthy_num cfg.min_value then
    "mean must be " ++ at_most_str cfg ++ " $max_value."
  else
    "mean must be " ++ at_least_str cfg ++ " $min_value."

/-- Embeds `_prescriptive_template` (expect_column_mean_to_be_between.py lines 164-208):
the bound template, with the `$column` prefix when `include_column_name` is set on the
renderer configuration. -/
def prescriptive_template_str (cfg : MeanKwargs) (include_column_name : Bool) : String :=
  if include_column_name then "$column " ++ prescriptive_bound_template cfg
  else prescriptive_bound_template cfg

/-- Embeds the `template_str` computation of the legacy `_prescriptive_renderer`
(expect_column_mean_to_be_between.py lines 239-250): explicit `is None` tests on the
bound kwargs, then the phrase pair from `handle_strict_min_max`. -/
def mean_bound_template (cfg : MeanKwargs) : String :=
  if cfg.min_value.isNone && cfg.max_value.isNone then
    "mean may have any numerical value."
  else if cfg.min_value.isSome && cfg.max_value.isSome then
    "mean must be " ++ (handle_strict_min_max cfg).1 ++ " $min_value and "
      ++ (handle_strict_min_max cfg).2 ++ " $max_value."
  else if cfg.min_value.isNone then
    "mean must be " ++ (handle_strict_min_max cfg).2 ++ " $max_value."
  else if cfg.max_value.isNone then
    "mean must be " ++ (handle_strict_min_max cfg).1 ++ " $min_value."
  else ""

/-- A nullable string kwarg as a dict value. -/
def opt_str : Option String → PValue
  | none => PValue.null
  | some s => PValue.str s

/-- A nullable numeric kwarg as a dict value. -/
def opt_num : Option ℚ → PValue
  | none => PValue.null
  | some q => PValue.num q

/-- A nullable boolean kwarg as a dict value. -/
def opt_bool : Option Bool → PValue
  | none => PValue.null
  | some b => PValue.bool b

/-- Embeds the `params` dict built by `substitute_none_for_missing` in the legacy mean
renderer (expect_column_mean_to_be_between.py lines 226-237). -/
def mean_params (cfg : MeanKwargs) : List (String × PValue) :=
  [("column", opt_str cfg.column),
   ("min_value", opt_num cfg.min_value),
   ("max_value", opt_num cfg.max_value),
   ("row_condition", opt_str cfg.row_condition),
   ("condition_parser", opt_str cfg.condition_parser_value),
   ("strict_min", opt_bool cfg.strict_min),
   ("strict_max", opt_bool cfg.strict_max)]

/-- Modelled from the spec: `parse_row_condition_string_pandas_engine` (render.util, not
under src/) returns a separately-parsed conditional-filter description: a clause
template and the parameter bindings the clause mentions. -/
def parse_row_condition_string_pandas_engine (row_condition : String) :
    String × List (String × PValue) :=
  ("if $row_condition__0", [("row_condition__0", PValue.str row_condition)])

/-- Embeds the legacy `_prescriptive_renderer` of `ExpectColumnMeanToBeBetween`
(expect_column_mean_to_be_between.py lines 210-272): include_column_name defaults to
true unless the runtime configuration sets it to `False`; the bound template is
prefixed with "$column " when included, and with the parsed row-condition clause plus
", then " when a row condition is present, whose parameters are merged into `params`.
The `result` argument is never read by the body. -/
def mean_prescriptive_renderer (cfg : MeanKwargs)
    (result : Option ExpectationValidationResult)
    (runtime_configuration : RuntimeConfiguration) : RenderedStringTemplateContent :=
  let include_column_name : Bool :=
    !(runtime_configuration.include_column_name == some false)
  let template0 : String := mean_bound_template cfg
  let template1 : String :=
    if include_column_name then "$column " ++ template0 else template0
  match cfg.row_condition with
  | none =>
      ⟨"string_template", template1, mean_params cfg, runtime_configuration.styling⟩
  | some rc =>
      ⟨"string_template",
       (parse_row_condition_string_pandas_engine rc).1 ++ ", then " ++ template1,
       dict_update (mean_params cfg) (parse_row_condition_string_pandas_engine rc).2,
       runtime_configuration.styling⟩

/-- Modelled from the spec: `_validate_metric_value_between` (expectation base class, not
under src/), the Bound Evaluator of spec 4.1: each non-`None` side imposes `>=`/`<=`
(or `>`/`<` when strict); a `None` side imposes no constraint; success iff all imposed
constraints hold. -/
def validate_metric_value_between (value : ℚ) (min_value max_value : Option ℚ)
    (strict_min strict_max : Bool) : Bool :=
  (match min_value with
   | none => true
   | some lo => if strict_min then decide (lo < value) else decide (lo ≤ value))
  && (match max_value with
   | none => true
   | some hi => if strict_max then decide (value < hi) else decide (value ≤ hi))

/-- Embeds `ExpectColumnMeanToBeBetween._validate`
(expect_column_mean_to_be_between.py lines 295-309): delegates the observed
"column.mean" metric value to `_validate_metric_value_between` with the configured
bounds; the strict flags default to false when absent. -/
def mean_validate (observed_mean : ℚ) (cfg : MeanKwargs) : Bool :=
  validate_metric_value_between observed_mean cfg.min_value cfg.max_value
    (cfg.strict_min == some true) (cfg.strict_max == some true)

/-- The kwargs of an `ExpectMulticolumnSumToEqual` configuration, after
`substitute_none_for_missing` over ["column_list", "sum_total", "mostly"]. -/
structure MulticolumnKwargs where
  column_list : Option (List String)
  sum_total : Option ℚ
  mostly : Option ℚ
deriving DecidableEq

/-- Modelled from the spec: `num_to_str` (render.util, not under src/), a numeric display
helper whose exact format the spec does not constrain; rendered as a plain decimal or
fractional string. -/
def num_to_str (q : ℚ) : String :=
  if q.den == 1 then pyStrInt q.num else pyStrInt q.num ++ "/" ++ pyStr q.den

/-- The three admissible `ignore_row_if` policies
(expect_multicolumn_sum_to_equal.py lines 57-59). -/
inductive IgnoreRowIf where
  | all_values_are_missing
  | any_value_is_missing
  | never
deriving DecidableEq

/-- Embeds the `ignore_row_if` field declaration of `ExpectMulticolumnSumToEqual`
(expect_multicolumn_sum_to_equal.py lines 57-59): a `Literal` over exactly three
strings, defaulting to "all_values_are_missing" when the kwarg is omitted; any other
value fails configuration-time validation. -/
def validate_ignore_row_if (v : Option String) : Except String IgnoreRowIf :=
  match v with
  | none => Except.ok IgnoreRowIf.all_values_are_missing
  | some s =>
      if s = "all_values_are_missing" then Except.ok IgnoreRowIf.all_values_are_missing
      else if s = "any_value_is_missing" then Except.ok IgnoreRowIf.any_value_is_missing
      else if s = "never" then Except.ok IgnoreRowIf.never
      else Except.error ("unexpected value for ignore_row_if: " ++ s)

/-- Embeds the construction-time validation of `ExpectMulticolumnSumToEqual` visible in
src/ (expect_multicolumn_sum_to_equal.py lines 56-59): `sum_total` is a required field
and `ignore_row_if` is validated against its three-string `Literal` type. No check on
`column_list` appears anywhere under src/ (the field itself is declared in the base
class, outside src/), so none is performed here. -/
def construct_multicolumn_sum_to_equal (column_list : List String)
    (sum_total : Option ℚ) (ignore_row_if_kw : Option String) :
    Except String (List String × ℚ × IgnoreRowIf) :=
  match sum_total with
  | none => Except.error "sum_total is required"
  | some t =>
      (validate_ignore_row_if ignore_row_if_kw).map (fun p => (column_list, t, p))

/-- Embeds the `for idx in range(len(column_list) - 1)` loop of the multicolumn
prescriptive renderer (expect_multicolumn_sum_to_equal.py lines 109-111): each
iteration appends `$column_list_{idx}, ` to the joined string and binds the
placeholder to `column_list[idx]`; an out-of-range access aborts the call. -/
def multicolumn_sum_column_loop (cols : List String) :
    List Nat → String → List (String × PValue) → Option (String × List (String × PValue))
  | [], s, ps => some (s, ps)
  | idx :: rest, s, ps =>
      match py_index cols (idx : Int) with
      | none => none
      | some v =>
          multicolumn_sum_column_loop cols rest
            (s ++ "$column_list_" ++ pyStr idx ++ ", ")
            (dict_set ps ("column_list_" ++ pyStr idx) (PValue.str v))

/-- Embeds `ExpectMulticolumnSumToEqual._prescriptive_renderer`
(expect_multicolumn_sum_to_equal.py lines 81-129). A missing `column_list` makes
`len(...)` raise a `TypeError`; indexing the empty list at `-1` raises an
`IndexError`; both abort the call with the corresponding error. The `result`
argument is never read by the body. -/
def multicolumn_prescriptive_renderer (cfg : MulticolumnKwargs)
    (result : Option ExpectationValidationResult)
    (runtime_configuration : RuntimeConfiguration) :
    Except String RenderedStringTemplateContent :=
  let styling := runtime_configuration.styling
  match cfg.column_list with
  | none => Except.error "TypeError: object of type NoneType has no len"
  | some cols =>
      let params0 : List (String × PValue) :=
        [("column_list", PValue.strList cols),
         ("sum_total", opt_num cfg.sum_total),
         ("mostly", opt_num cfg.mostly)]
      let params1 : List (String × PValue) :=
        match cfg.mostly with
        | some m => dict_set params0 "mostly_pct" (PValue.str (num_to_str (m * 100)))
        | none => params0
      let mostly_str : String :=
        match cfg.mostly with
        | none => ""
        | some _ => ", at least $mostly_pct % of the time"
      match multicolumn_sum_column_loop cols (List.range (cols.length - 1)) "" params1 with
      | none => Except.error "IndexError: list index out of range"
      | some (column_list_str0, params2) =>
          let last_idx : Int := (cols.length : Int) - 1
          match py_index cols last_idx with
          | none => Except.error "IndexError: list index out of range"
          | some v =>
              let column_list_str :=
                column_list_str0 ++ "$column_list_" ++ pyStrInt last_idx
              let params3 :=
                dict_set params2 ("column_list_" ++ pyStrInt last_idx) (PValue.str v)
              Except.ok
                ⟨"string_template",
                 "Sum across columns " ++ column_list_str ++ " must be $sum_total"
                   ++ mostly_str ++ ".",
                 params3, styling⟩

/-- Join a list of already-rendered placeholder names with the separator ", " and no
final "and": the joining discipline the spec prescribes for list-valued subjects. -/
def comma_join : List String → String
  | [] => ""
  | [a] => a
  | a :: b :: rest => a ++ ", " ++ comma_join (b :: rest)

/-! Helper lemmas: strings, association lists, decimal representations. -/

theorem str_empty_append (s : String) : "" ++ s = s := rfl

theorem str_append_assoc (a b c : String) : a ++ b ++ c = a ++ (b ++ c) :=
  congrArg String.mk (List.append_assoc a.data b.data c.data)

theorem str_data_append (a b : String) : (a ++ b).data = a.data ++ b.data := rfl

theorem str_append_right_inj (s : String) {a b : String} (h : s ++ a = s ++ b) :
    a = b := by
  have h2 : s.data ++ a.data = s.data ++ b.data := congrArg String.data h
  exact congrArg String.mk (List.append_cancel_left h2)

theorem dict_get_set_self (ps : List (String × PValue)) (k : String) (v : PValue) :
    dict_get (dict_set ps k v) k = some v := by
  induction ps with
  | nil => simp [dict_set, dict_get]
  | cons p ps ih =>
    by_cases h : p.1 = k
    · simp [dict_set, dict_get, h]
    · simp [dict_set, dict_get, h, ih]

theorem dict_get_set_ne (ps : List (String × PValue)) (k k' : String) (v : PValue)
    (h : k' ≠ k) : dict_get (dict_set ps k v) k' = dict_get ps k' := by
  have hkk : ¬ k = k' := fun he => h he.symm
  induction ps with
  | nil => simp [dict_set, dict_get, hkk]
  | cons p ps ih =>
    by_cases hp : p.1 = k
    · have hp' : ¬ p.1 = k' := fun he => hkk (hp.symm.trans he)
      simp [dict_set, dict_get, hp, hp', hkk]
    · simp [dict_set, dict_get, hp, ih]

theorem from_digits_cons (d : Nat) (l : List Nat) :
    (d :: l).foldr (fun d acc => d + 10 * acc) 0
      = d + 10 * l.foldr (fun d acc => d + 10 * acc) 0 := rfl

theorem nat_digits_aux_sound :
    ∀ fuel n, n ≤ fuel →
      (nat_digits_aux fuel n).foldr (fun d acc => d + 10 * acc) 0 = n := by
  intro fuel
  induction fuel with
  | zero => intro n hn; interval_cases n; simp [nat_digits_aux]
  | succ fuel ih =>
    intro n hn
    by_cases h0 : n = 0
    · simp [nat_digits_aux, h0]
    · have hdiv : n / 10 ≤ fuel := by
        have hlt : n / 10 < n := Nat.div_lt_self (Nat.pos_of_ne_zero h0) (by decide)
        omega
      simp only [nat_digits_aux, h0, if_false, from_digits_cons, ih (n / 10) hdiv]
      omega

theorem nat_digits_sound (n : Nat) :
    (nat_digits n).foldr (fun d acc => d + 10 * acc) 0 = n :=
  nat_digits_aux_sound n n (Nat.le_refl n)

theorem nat_digits_aux_lt_ten :
    ∀ fuel n d, d ∈ nat_digits_aux fuel n → d < 10 := by
  intro fuel
  induction fuel with
  | zero => intro n d hd; simp [nat_digits_aux] at hd
  | succ fuel ih =>
    intro n d hd
    by_cases h0 : n = 0
    · simp [nat_digits_aux, h0] at hd
    · simp only [nat_digits_aux, h0, if_false, List.mem_cons] at hd
      rcases hd with hd | hd
      · omega
      · exact ih _ _ hd

theorem digit_char_inj {a b : Nat} (ha : a < 10) (hb : b < 10)
    (h : digit_char a = digit_char b) : a = b := by
  interval_cases a <;> interval_cases b <;> revert h <;> decide

theorem map_digit_char_inj :
    ∀ l1 l2 : List Nat, (∀ d ∈ l1, d < 10) → (∀ d ∈ l2, d < 10) →
      l1.map digit_char = l2.map digit_char → l1 = l2 := by
  intro l1
  induction l1 with
  | nil => intro l2 _ _ h; cases l2 <;> simp_all
  | cons a t ih =>
    intro l2 h1 h2 h
    cases l2 with
    | nil => simp_all
    | cons b t2 =>
      simp only [List.map_cons, List.cons.injEq] at h
      have hab : a = b :=
        digit_char_inj (h1 a (by simp)) (h2 b (by simp)) h.1
      have ht : t = t2 :=
        ih t2 (fun d hd => h1 d (by simp [hd])) (fun d hd => h2 d (by simp [hd])) h.2
      simp [hab, ht]

theorem pyStr_inj : ∀ {n m : Nat}, pyStr n = pyStr m → n = m := by
  have key : ∀ n m : Nat, n ≠ 0 → m ≠ 0 → pyStr n = pyStr m → n = m := by
    intro n m hn hm h
    simp only [pyStr, hn, hm, if_false] at h
    have hdata := congrArg String.data h
    simp only [List.asString] at hdata
    have hrev : (nat_digits n).reverse = (nat_digits m).reverse :=
      map_digit_char_inj _ _
        (fun d hd => nat_digits_aux_lt_ten n n d (List.mem_reverse.mp hd))
        (fun d hd => nat_digits_aux_lt_ten m m d (List.mem_reverse.mp hd)) hdata
    have hdig : nat_digits n = nat_digits m :=
      List.reverse_injective hrev
    calc n = (nat_digits n).foldr (fun d acc => d + 10 * acc) 0 :=
            (nat_digits_sound n).symm
      _ = (nat_digits m).foldr (fun d acc => d + 10 * acc) 0 := by rw [hdig]
      _ = m := nat_digits_sound m
  have zero_case : ∀ m : Nat, m ≠ 0 → pyStr 0 ≠ pyStr m := by
    intro m hm h
    rw [show pyStr 0 = "0" from rfl] at h
    simp only [pyStr, if_neg hm] at h
    have hdata : ("0" : String).data = List.map digit_char (nat_digits m).reverse :=
      congrArg String.data h
    have h0 : ("0" : String).data = List.map digit_char [0] := by decide
    have h1 : ([0] : List Nat).map digit_char = (nat_digits m).reverse.map digit_char :=
      h0.symm.trans hdata
    have h2 : ([0] : List Nat) = (nat_digits m).reverse :=
      map_digit_char_inj _ _ (by simp)
        (fun d hd => nat_digits_aux_lt_ten m m d (List.mem_reverse.mp hd)) h1
    have h3 : nat_digits m = [0] := by
      have := congrArg List.reverse h2
      simpa using this.symm
    have := nat_digits_sound m
    rw [h3] at this
    simp at this
    exact hm this.symm
  intro n m h
  by_cases hn : n = 0 <;> by_cases hm : m = 0
  · omega
  · exact absurd (hn ▸ h) (zero_case m hm)
  · exact absurd (hm ▸ h.symm) (zero_case n hn)
  · exact key n m hn hm h

theorem column_list_key_inj {i j : Nat}
    (h : ("column_list_" ++ pyStr i : String) = "column_list_" ++ pyStr j) : i = j :=
  pyStr_inj (str_append_right_inj _ h)

theorem py_index_of_lt (l : List String) (a : Nat) (h : a < l.length) :
    py_index l (a : Int) = some (l.getD a "") := by
  simp only [py_index, Int.ofNat_nonneg, if_pos, Int.toNat_ofNat]
  rw [List.getElem?_eq_getElem h, List.getD_eq_getElem l "" h]

theorem multicolumn_sum_column_loop_eq_foldl (cols : List String) :
    ∀ (l : List Nat), (∀ i ∈ l, i < cols.length) → ∀ s ps,
      multicolumn_sum_column_loop cols l s ps =
        some (l.foldl (fun acc i => acc ++ "$column_list_" ++ pyStr i ++ ", ") s,
              l.foldl
                (fun acc i =>
                  dict_set acc ("column_list_" ++ pyStr i) (PValue.str (cols.getD i "")))
                ps) := by
  intro l
  induction l with
  | nil => intro _ s ps; simp [multicolumn_sum_column_loop]
  | cons a t ih =>
    intro hmem s ps
    have ha : a < cols.length := hmem a (by simp)
    simp only [multicolumn_sum_column_loop, py_index_of_lt cols a ha, List.foldl_cons]
    exact ih (fun i hi => hmem i (by simp [hi])) _ _

theorem comma_join_snoc :
    ∀ (l : List String) (a : String), l ≠ [] →
      comma_join (l ++ [a]) = comma_join l ++ ", " ++ a := by
  intro l
  induction l with
  | nil => intro a h; exact absurd rfl h
  | cons x t ih =>
    intro a _
    cases t with
    | nil => simp [comma_join]
    | cons y t2 =>
      have ih2 := ih a (by simp)
      have h1 : comma_join ((x :: y :: t2 : List String) ++ [a])
          = x ++ ", " ++ comma_join ((y :: t2 : List String) ++ [a]) := rfl
      have h2 : comma_join (x :: y :: t2 : List String)
          = x ++ ", " ++ comma_join (y :: t2 : List String) := rfl
      rw [h1, h2, ih2]
      simp [str_append_assoc]

theorem range_fold_comma (k : Nat) :
    (List.range k).foldl (fun acc i => acc ++ "$column_list_" ++ pyStr i ++ ", ") ""
        ++ "$column_list_" ++ pyStr k
      = comma_join ((List.range (k + 1)).map (fun i => "$column_list_" ++ pyStr i)) := by
  induction k with
  | zero => simp [comma_join]
  | succ k ih =>
    have hL : List.range (k + 1) = List.range k ++ [k] := List.range_succ k
    have hR : List.range (k + 2) = List.range (k + 1) ++ [k + 1] := List.range_succ (k + 1)
    rw [hR, List.map_append]
    simp only [List.map_cons, List.map_nil]
    rw [comma_join_snoc _ _ (by simp), ← ih, hL, List.foldl_append]
    simp only [List.foldl_cons, List.foldl_nil]
    simp [str_append_assoc]
    rfl

theorem dict_get_foldl_cols (cols : List String) :
    ∀ (m : Nat) (ps : List (String × PValue)) (i : Nat), i < m →
      dict_get
        ((List.range m).foldl
          (fun acc j =>
            dict_set acc ("column_list_" ++ pyStr j) (PValue.str (cols.getD j "")))
          ps)
        ("column_list_" ++ pyStr i)
      = some (PValue.str (cols.getD i "")) := by
  intro m
  induction m with
  | zero => intro ps i hi; omega
  | succ m ih =>
    intro ps i hi
    rw [List.range_succ, List.foldl_append]
    simp only [List.foldl_cons, List.foldl_nil]
    by_cases h : i = m
    · subst h
      exact dict_get_set_self _ _ _
    · have hne : ("column_list_" ++ pyStr i : String) ≠ "column_list_" ++ pyStr m :=
        fun he => h (column_list_key_inj he)
      rw [dict_get_set_ne _ _ _ _ hne]
      exact ih ps i (by omega)

theorem mean_must_ne_unconstrained (r : String) :
    "mean must be " ++ r ≠ "mean may have any numerical value." := by
  intro h
  have hd : ("mean must be " : String).data ++ r.data
      = ("mean may have any numerical value." : String).data := congrArg String.data h
  have h6 : (("mean must be " : String).data ++ r.data)[6]? = some 'u' := by
    rw [List.getElem?_append_left (by decide)]
    decide
  rw [hd] at h6
  revert h6
  decide

theorem bound_template_eq (cfg : MeanKwargs) :
    prescriptive_bound_template cfg = mean_bound_template cfg := by
  obtain ⟨col, mn, mx, rc, cp, sm, sx⟩ := cfg
  cases mn <;> cases mx <;>
    simp [prescriptive_bound_template, mean_bound_template, truthy_num, at_least_str,
      at_most_str, handle_strict_min_max, get_strict_min_string, get_strict_max_string]

/-- Claim C2: with both bounds present and `min <= max`, a non-strict configuration
accepts an observed mean equal to either endpoint, and a strict flag on a side makes
validation fail when the observed mean equals that exact endpoint. -/
theorem mean_validate_endpoints (m M : ℚ) (h : m ≤ M) :
    mean_validate m ⟨none, some m, some M, none, none, some false, some false⟩ = true
  ∧ mean_validate M ⟨none, some m, some M, none, none, some false, some false⟩ = true
  ∧ (∀ (mx : Option ℚ) (sx : Option Bool),
      mean_validate m ⟨none, some m, mx, none, none, some true, sx⟩ = false)
  ∧ (∀ (mn : Option ℚ) (sm : Option Bool),
      mean_validate M ⟨none, mn, some M, none, none, sm, some true⟩ = false) := by
  refine ⟨?_, ?_, ?_, ?_⟩
  · simp [mean_validate, validate_metric_value_between, h]
  · simp [mean_validate, validate_metric_value_between, h]
  · intro mx sx
    simp [mean_validate, validate_metric_value_between]
  · intro mn sm
    simp [mean_validate, validate_metric_value_between]

theorem mean_validate_endpoints_witness :
    (1 : ℚ) ≤ 2
  ∧ mean_validate 1 ⟨none, some 1, some 2, none, none, some false, some false⟩ = true
  ∧ mean_validate 1 ⟨none, some 1, some 2, none, none, some true, some false⟩ = false :=
  ⟨by norm_num,
   (mean_validate_endpoints 1 2 (by norm_num)).1,
   (mean_validate_endpoints 1 2 (by norm_num)).2.2.1 (some 2) (some false)⟩

/-- Claim C7: the prescriptive renderers of both expectations produce identical output
(template, params, styling) for any two values of their `result` argument, including
`none` versus a populated validation result. -/
theorem renderers_ignore_result (cfg : MeanKwargs) (mcfg : MulticolumnKwargs)
    (rtc : RuntimeConfiguration) (r1 r2 : Option ExpectationValidationResult) :
    mean_prescriptive_renderer cfg r1 rtc = mean_prescriptive_renderer cfg r2 rtc
  ∧ multicolumn_prescriptive_renderer mcfg r1 rtc
      = multicolumn_prescriptive_renderer mcfg r2 rtc :=
  ⟨rfl, rfl⟩

/-- Claim C9: `ignore_row_if` accepts exactly "all_values_are_missing",
"any_value_is_missing" and "never", defaults to "all_values_are_missing" when omitted,
and any other value is rejected at configuration time. -/
theorem ignore_row_if_accepts_exactly_three :
    validate_ignore_row_if none = Except.ok IgnoreRowIf.all_values_are_missing
  ∧ validate_ignore_row_if (some "all_values_are_missing")
      = Except.ok IgnoreRowIf.all_values_are_missing
  ∧ validate_ignore_row_if (some "any_value_is_missing")
      = Except.ok IgnoreRowIf.any_value_is_missing
  ∧ validate_ignore_row_if (some "never") = Except.ok IgnoreRowIf.never
  ∧ ∀ s : String, s ≠ "all_values_are_missing" → s ≠ "any_value_is_missing" →
      s ≠ "never" →
      validate_ignore_row_if (some s)
        = Except.error ("unexpected value for ignore_row_if: " ++ s) := by
  refine ⟨rfl, rfl, rfl, rfl, ?_⟩
  intro s h1 h2 h3
  simp [validate_ignore_row_if, h1, h2, h3]

theorem ignore_row_if_accepts_exactly_three_witness :
    ("sometimes" : String) ≠ "all_values_are_missing"
  ∧ ("sometimes" : String) ≠ "any_value_is_missing"
  ∧ ("sometimes" : String) ≠ "never"
  ∧ validate_ignore_row_if (some "sometimes")
      = Except.error ("unexpected value for ignore_row_if: " ++ "sometimes") :=
  ⟨by decide, by decide, by decide,
   ignore_row_if_accepts_exactly_three.2.2.2.2 "sometimes" (by decide) (by decide)
     (by decide)⟩

/-- Claim C8 counterexample: a multicolumn-sum rule with an empty `column_list` passes
every construction-time check visible in the source, and its prescriptive renderer then
fails with an out-of-range indexing error (it reads index -1 of the empty list), not
with a configuration error at construction. -/
theorem multicolumn_empty_list_counterexample :
    construct_multicolumn_sum_to_equal [] (some 10) none
      = Except.ok ([], 10, IgnoreRowIf.all_values_are_missing)
  ∧ multicolumn_prescriptive_renderer ⟨some [], some 10, none⟩ none ⟨none, none⟩
      = Except.error "IndexError: list index out of range" :=
  ⟨rfl, rfl⟩

/-- Claim C8 (amended): constructing a multicolumn-sum rule with an empty `column_list`
is not rejected at construction time; instead, the prescriptive renderer applied to any
configuration with an empty `column_list` fails with an out-of-range list indexing
error when it accesses the last element of the empty list. -/
theorem multicolumn_empty_column_list_behavior :
    (∀ t : ℚ, construct_multicolumn_sum_to_equal [] (some t) none
        = Except.ok ([], t, IgnoreRowIf.all_values_are_missing))
  ∧ (∀ (st mo : Option ℚ) (r : Option ExpectationValidationResult)
        (rtc : RuntimeConfiguration),
      multicolumn_prescriptive_renderer ⟨some [], st, mo⟩ r rtc
        = Except.error "IndexError: list index out of range") := by
  constructor
  · intro t
    rfl
  · intro st mo r rtc
    cases mo <;> rfl

/-- Claim C3: for every configuration with `include_column_name` not disabled and no
row condition, the template produced by the legacy `_prescriptive_renderer` coincides
with the template produced by the new-style `_prescriptive_template`. -/
theorem prescriptive_template_matches_legacy (cfg : MeanKwargs)
    (r : Option ExpectationValidationResult) (rtc : RuntimeConfiguration)
    (h1 : cfg.row_condition = none) (h2 : rtc.include_column_name ≠ some false) :
    (mean_prescriptive_renderer cfg r rtc).template = prescriptive_template_str cfg true := by
  have hb : (rtc.include_column_name == some false) = false := beq_eq_false_iff_ne.mpr h2
  simp [mean_prescriptive_renderer, h1, hb, prescriptive_template_str, bound_template_eq cfg]

theorem prescriptive_template_matches_legacy_witness :
    (MeanKwargs.mk (some "age") (some 1) none none none none none).row_condition = none
  ∧ (RuntimeConfiguration.mk none none).include_column_name ≠ some false
  ∧ (mean_prescriptive_renderer ⟨some "age", some 1, none, none, none, none, none⟩
        none ⟨none, none⟩).template
      = prescriptive_template_str ⟨some "age", some 1, none, none, none, none, none⟩ true :=
  ⟨rfl, by decide, prescriptive_template_matches_legacy _ none _ rfl (by decide)⟩

/-- Claim C4: with at least one bound present, the lower-bound phrase is "greater than
or equal to" unless `strict_min` selects the strict variant, symmetrically for the
upper bound, and with both bounds present the template conjoins the lower-bound clause
then the upper-bound clause, in that order; this holds for the legacy and the
new-style template alike. -/
theorem mean_bound_phrase_selection (cfg : MeanKwargs) :
    (∀ a : ℚ, cfg.min_value = some a → cfg.max_value = none →
      mean_bound_template cfg
          = "mean must be "
            ++ (if cfg.strict_min == some true then "strictly greater than"
                else "greater than or equal to") ++ " $min_value."
        ∧ prescriptive_bound_template cfg
          = "mean must be "
            ++ (if cfg.strict_min == some true then "strictly greater than"
                else "greater than or equal to") ++ " $min_value.")
  ∧ (∀ b : ℚ, cfg.min_value = none → cfg.max_value = some b →
      mean_bound_template cfg
          = "mean must be "
            ++ (if cfg.strict_max == some true then "strictly less than"
                else "less than or equal to") ++ " $max_value."
        ∧ prescriptive_bound_template cfg
          = "mean must be "
            ++ (if cfg.strict_max == some true then "strictly less than"
                else "less than or equal to") ++ " $max_value.")
  ∧ (∀ a b : ℚ, cfg.min_value = some a → cfg.max_value = some b →
      mean_bound_template cfg
          = "mean must be "
            ++ (if cfg.strict_min == some true then "strictly greater than"
                else "greater than or equal to") ++ " $min_value and "
            ++ (if cfg.strict_max == some true then "strictly less than"
                else "less than or equal to") ++ " $max_value."
        ∧ prescriptive_bound_template cfg
          = "mean must be "
            ++ (if cfg.strict_min == some true then "strictly greater than"
                else "greater than or equal to") ++ " $min_value and "
            ++ (if cfg.strict_max == some true then "strictly less than"
                else "less than or equal to") ++ " $max_value.") := by
  obtain ⟨col, mn, mx, rc, cp, sm, sx⟩ := cfg
  refine ⟨?_, ?_, ?_⟩
  · intro a h1 h2
    subst h1
    subst h2
    constructor <;>
      simp [mean_bound_template, prescriptive_bound_template, handle_strict_min_max,
        at_least_str, at_most_str, get_strict_min_string, get_strict_max_string,
        truthy_num]
  · intro b h1 h2
    subst h1
    subst h2
    constructor <;>
      simp [mean_bound_template, prescriptive_bound_template, handle_strict_min_max,
        at_least_str, at_most_str, get_strict_min_string, get_strict_max_string,
        truthy_num]
  · intro a b h1 h2
    subst h1
    subst h2
    constructor <;>
      simp [mean_bound_template, prescriptive_bound_template, handle_strict_min_max,
        at_least_str, at_most_str, get_strict_min_string, get_strict_max_string,
        truthy_num]

theorem mean_bound_phrase_selection_witness :
    (MeanKwargs.mk (some "age") none (some 5) none none none (some true)).min_value = none
  ∧ (MeanKwargs.mk (some "age") none (some 5) none none none (some true)).max_value
      = some 5
  ∧ mean_bound_template ⟨some "age", none, some 5, none, none, none, some true⟩
      = "mean must be "
        ++ (if (MeanKwargs.mk (some "age") none (some 5) none none none
              (some true)).strict_max == some true then "strictly less than"
            else "less than or equal to") ++ " $max_value."
  ∧ prescriptive_bound_template ⟨some "age", none, some 5, none, none, none, some true⟩
      = "mean must be "
        ++ (if (MeanKwargs.mk (some "age") none (some 5) none none none
              (some true)).strict_max == some true then "strictly less than"
            else "less than or equal to") ++ " $max_value." :=
  ⟨rfl, rfl,
   ((mean_bound_phrase_selection _).2.1 5 rfl rfl).1,
   ((mean_bound_phrase_selection _).2.1 5 rfl rfl).2⟩

/-- Claim C10: when the runtime configuration does not explicitly set
`include_column_name` to `False`, the rendered template is the "$column " subject
prefix followed by the bound phrase; when it is explicitly `False`, the prefix is
omitted and the rest of the template is unchanged. -/
theorem mean_renderer_include_column_behavior (cfg : MeanKwargs)
    (r : Option ExpectationValidationResult) (rtc : RuntimeConfiguration)
    (h : cfg.row_condition = none) :
    (rtc.include_column_name ≠ some false →
      (mean_prescriptive_renderer cfg r rtc).template
        = "$column " ++ mean_bound_template cfg)
  ∧ (rtc.include_column_name = some false →
      (mean_prescriptive_renderer cfg r rtc).template = mean_bound_template cfg) := by
  constructor
  · intro h2
    have hb : (rtc.include_column_name == some false) = false := beq_eq_false_iff_ne.mpr h2
    simp [mean_prescriptive_renderer, h, hb]
  · intro h2
    simp [mean_prescriptive_renderer, h, h2]

theorem mean_renderer_include_column_behavior_witness :
    (mean_prescriptive_renderer ⟨some "age", none, some 5, none, none, none, some true⟩
        none ⟨none, none⟩).template
      = "$column "
        ++ mean_bound_template ⟨some "age", none, some 5, none, none, none, some true⟩
  ∧ (mean_prescriptive_renderer ⟨some "age", none, some 5, none, none, none, some true⟩
        none ⟨some false, none⟩).template
      = mean_bound_template ⟨some "age", none, some 5, none, none, none, some true⟩ :=
  ⟨(mean_renderer_include_column_behavior _ none _ rfl).1 (by decide),
   (mean_renderer_include_column_behavior _ none _ rfl).2 rfl⟩

/-- Claim C6: with a row condition present, the rendered template is the parsed
conditional clause followed by ", then " and the otherwise-rendered phrase, and the
clause's parameters are merged into the returned params mapping; with no row condition
the template is the otherwise-rendered phrase unchanged. -/
theorem mean_renderer_row_condition (cfg : MeanKwargs)
    (r : Option ExpectationValidationResult) (rtc : RuntimeConfiguration)
    (s : String) :
    (cfg.row_condition = some s →
      (mean_prescriptive_renderer cfg r rtc).template
          = (parse_row_condition_string_pandas_engine s).1 ++ ", then "
            ++ (if !(rtc.include_column_name == some false)
                then "$column " ++ mean_bound_template cfg
                else mean_bound_template cfg)
        ∧ (mean_prescriptive_renderer cfg r rtc).params
          = dict_update (mean_params cfg) (parse_row_condition_string_pandas_engine s).2
        ∧ dict_get (mean_prescriptive_renderer cfg r rtc).params "row_condition__0"
          = some (PValue.str s))
  ∧ (cfg.row_condition = none →
      (mean_prescriptive_renderer cfg r rtc).template
          = (if !(rtc.include_column_name == some false)
             then "$column " ++ mean_bound_template cfg
             else mean_bound_template cfg)
        ∧ (mean_prescriptive_renderer cfg r rtc).params = mean_params cfg) := by
  constructor
  · intro h
    refine ⟨?_, ?_, ?_⟩
    · simp [mean_prescriptive_renderer, h]
    · simp [mean_prescriptive_renderer, h]
    · simp only [mean_prescriptive_renderer, h, parse_row_condition_string_pandas_engine,
        dict_update, List.foldl_cons, List.foldl_nil]
      exact dict_get_set_self _ _ _
  · intro h
    exact ⟨by simp [mean_prescriptive_renderer, h], by simp [mean_prescriptive_renderer, h]⟩

theorem mean_renderer_row_condition_witness :
    (MeanKwargs.mk (some "age") (some 1) none (some "x>1") none none none).row_condition
      = some "x>1"
  ∧ (mean_prescriptive_renderer ⟨some "age", some 1, none, some "x>1", none, none, none⟩
        none ⟨none, none⟩).template
      = (parse_row_condition_string_pandas_engine "x>1").1 ++ ", then "
        ++ (if !((RuntimeConfiguration.mk none none).include_column_name == some false)
            then "$column "
              ++ mean_bound_template ⟨some "age", some 1, none, some "x>1", none, none, none⟩
            else mean_bound_template ⟨some "age", some 1, none, some "x>1", none, none, none⟩)
  ∧ dict_get
        (mean_prescriptive_renderer ⟨some "age", some 1, none, some "x>1", none, none, none⟩
          none ⟨none, none⟩).params "row_condition__0"
      = some (PValue.str "x>1") :=
  ⟨rfl,
   ((mean_renderer_row_condition _ none _ "x>1").1 rfl).1,
   ((mean_renderer_row_condition _ none _ "x>1").1 rfl).2.2⟩

/-- Claim C1: both the legacy renderer's and the new-style template's bound phrase is
the unconstrained "mean may have any numerical value." exactly when both bounds are
None, and a bound whose value is the scalar 0 counts as present: with
`min_value = 0` the template is a bounded phrase mentioning `$min_value`, never the
unconstrained phrase. -/
theorem mean_unconstrained_iff (cfg : MeanKwargs) :
    (mean_bound_template cfg = "mean may have any numerical value."
       ↔ cfg.min_value = none ∧ cfg.max_value = none)
  ∧ (prescriptive_bound_template cfg = "mean may have any numerical value."
       ↔ cfg.min_value = none ∧ cfg.max_value = none)
  ∧ (cfg.min_value = some 0 →
      (∃ a b, mean_bound_template cfg = a ++ "$min_value" ++ b)
    ∧ (∃ a b, prescriptive_bound_template cfg = a ++ "$min_value" ++ b)) := by
  obtain ⟨col, mn, mx, rc, cp, sm, sx⟩ := cfg
  cases mn with
  | none =>
    cases mx with
    | none =>
      refine ⟨by simp [mean_bound_template],
        by simp [prescriptive_bound_template, truthy_num], by simp⟩
    | some b =>
      have hm : mean_bound_template ⟨col, none, some b, rc, cp, sm, sx⟩
          = "mean must be "
            ++ ((handle_strict_min_max ⟨col, none, some b, rc, cp, sm, sx⟩).2
              ++ " $max_value.") := by
        simp [mean_bound_template, str_append_assoc]
      have hp : prescriptive_bound_template ⟨col, none, some b, rc, cp, sm, sx⟩
          = "mean must be "
            ++ (at_most_str ⟨col, none, some b, rc, cp, sm, sx⟩ ++ " $max_value.") := by
        simp [prescriptive_bound_template, truthy_num, str_append_assoc]
      refine ⟨iff_of_false ?_ (by simp), iff_of_false ?_ (by simp), by simp⟩
      · rw [hm]
        exact mean_must_ne_unconstrained _
      · rw [hp]
        exact mean_must_ne_unconstrained _
  | some a =>
    cases mx with
    | none =>
      have hm : mean_bound_template ⟨col, some a, none, rc, cp, sm, sx⟩
          = "mean must be "
            ++ ((handle_strict_min_max ⟨col, some a, none, rc, cp, sm, sx⟩).1
              ++ " $min_value.") := by
        simp [mean_bound_template, str_append_assoc]
      have hp : prescriptive_bound_template ⟨col, some a, none, rc, cp, sm, sx⟩
          = "mean must be "
            ++ (at_least_str ⟨col, some a, none, rc, cp, sm, sx⟩ ++ " $min_value.") := by
        simp [prescriptive_bound_template, truthy_num, str_append_assoc]
      refine ⟨iff_of_false ?_ (by simp), iff_of_false ?_ (by simp), ?_⟩
      · rw [hm]
        exact mean_must_ne_unconstrained _
      · rw [hp]
        exact mean_must_ne_unconstrained _
      · intro _
        constructor
        · exact ⟨"mean must be "
              ++ (handle_strict_min_max ⟨col, some a, none, rc, cp, sm, sx⟩).1 ++ " ",
            ".", by rw [hm]; simp [str_append_assoc]⟩
        · exact ⟨"mean must be "
              ++ at_least_str ⟨col, some a, none, rc, cp, sm, sx⟩ ++ " ",
            ".", by rw [hp]; simp [str_append_assoc]⟩
    | some b =>
      have hm : mean_bound_template ⟨col, some a, some b, rc, cp, sm, sx⟩
          = "mean must be "
            ++ ((handle_strict_min_max ⟨col, some a, some b, rc, cp, sm, sx⟩).1
              ++ (" $min_value and "
                ++ ((handle_strict_min_max ⟨col, some a, some b, rc, cp, sm, sx⟩).2
                  ++ " $max_value."))) := by
        simp [mean_bound_template, str_append_assoc]
      have hp : prescriptive_bound_template ⟨col, some a, some b, rc, cp, sm, sx⟩
          = "mean must be "
            ++ (at_least_str ⟨col, some a, some b, rc, cp, sm, sx⟩
              ++ (" $min_value and "
                ++ (at_most_str ⟨col, some a, some b, rc, cp, sm, sx⟩
                  ++ " $max_value."))) := by
        simp [prescriptive_bound_template, truthy_num, str_append_assoc]
      refine ⟨iff_of_false ?_ (by simp), iff_of_false ?_ (by simp), ?_⟩
      · rw [hm]
        exact mean_must_ne_unconstrained _
      · rw [hp]
        exact mean_must_ne_unconstrained _
      · intro _
        constructor
        · exact ⟨"mean must be "
              ++ (handle_strict_min_max ⟨col, some a, some b, rc, cp, sm, sx⟩).1 ++ " ",
            " and "
              ++ (handle_strict_min_max ⟨col, some a, some b, rc, cp, sm, sx⟩).2
              ++ " $max_value.",
            by rw [hm]; simp [str_append_assoc]; rfl⟩
        · exact ⟨"mean must be "
              ++ at_least_str ⟨col, some a, some b, rc, cp, sm, sx⟩ ++ " ",
            " and " ++ at_most_str ⟨col, some a, some b, rc, cp, sm, sx⟩
              ++ " $max_value.",
            by rw [hp]; simp [str_append_assoc]; rfl⟩

theorem mean_unconstrained_iff_witness :
    (MeanKwargs.mk (some "age") (some 0) none none none none none).min_value = some 0
  ∧ (∃ a b, mean_bound_template ⟨some "age", some 0, none, none, none, none, none⟩
      = a ++ "$min_value" ++ b)
  ∧ (∃ a b, prescriptive_bound_template ⟨some "age", some 0, none, none, none, none, none⟩
      = a ++ "$min_value" ++ b) :=
  ⟨rfl,
   ((mean_unconstrained_iff ⟨some "age", some 0, none, none, none, none, none⟩).2.2 rfl).1,
   ((mean_unconstrained_iff ⟨some "age", some 0, none, none, none, none, none⟩).2.2 rfl).2⟩

/-- Claim C5: for every non-empty column_list of length n, the multicolumn-sum
prescriptive renderer emits the placeholders `$column_list_0` .. `$column_list_{n-1}`
joined by ", " (no "and" before the last) in input order, and binds each placeholder
to the corresponding element of column_list in the returned params mapping. -/
theorem multicolumn_renderer_column_list (cols : List String) (st mo : Option ℚ)
    (r : Option ExpectationValidationResult) (rtc : RuntimeConfiguration)
    (h : cols ≠ []) :
    ∃ c, multicolumn_prescriptive_renderer ⟨some cols, st, mo⟩ r rtc = Except.ok c
      ∧ c.template
          = "Sum across columns "
            ++ comma_join ((List.range cols.length).map
                (fun i => "$column_list_" ++ pyStr i))
            ++ " must be $sum_total"
            ++ (if mo.isSome then ", at least $mostly_pct % of the time" else "")
            ++ "."
      ∧ ∀ i (hi : i < cols.length),
          dict_get c.params ("column_list_" ++ pyStr i)
            = some (PValue.str cols[i]) := by
  obtain ⟨c0, cs, rfl⟩ : ∃ c0 cs, cols = c0 :: cs := by
    cases cols with
    | nil => exact absurd rfl h
    | cons x xs => exact ⟨x, xs, rfl⟩
  have hmem : ∀ i ∈ List.range cs.length, i < (c0 :: cs).length := by
    intro i hi
    rw [List.mem_range] at hi
    simp
    omega
  have hloop := multicolumn_sum_column_loop_eq_foldl (c0 :: cs) (List.range cs.length) hmem
  have hcast : (((cs.length + 1 : Nat) : Int) - 1) = ((cs.length : Nat) : Int) := by
    omega
  have hlast : py_index (c0 :: cs) (((cs.length + 1 : Nat) : Int) - 1)
      = some ((c0 :: cs).getD cs.length "") := by
    rw [hcast]
    exact py_index_of_lt _ _ (by simp)
  have hpyint : pyStrInt (((cs.length + 1 : Nat) : Int) - 1) = pyStr cs.length := by
    rw [hcast]
    rfl
  have hgetD : ∀ i (hi : i < (c0 :: cs).length), ((c0 :: cs).getD i "") = (c0 :: cs)[i] :=
    fun i hi => List.getD_eq_getElem _ _ hi
  cases mo with
  | none =>
    have hr : multicolumn_prescriptive_renderer ⟨some (c0 :: cs), st, none⟩ r rtc
        = Except.ok
            ⟨"string_template",
             "Sum across columns "
               ++ ((List.range cs.length).foldl
                    (fun acc i => acc ++ "$column_list_" ++ pyStr i ++ ", ") ""
                  ++ "$column_list_" ++ pyStr cs.length)
               ++ " must be $sum_total" ++ "" ++ ".",
             dict_set
               ((List.range cs.length).foldl
                 (fun acc j => dict_set acc ("column_list_" ++ pyStr j)
                   (PValue.str ((c0 :: cs).getD j "")))
                 [("column_list", PValue.strList (c0 :: cs)),
                  ("sum_total", opt_num st), ("mostly", opt_num none)])
               ("column_list_" ++ pyStr cs.length)
               (PValue.str ((c0 :: cs).getD cs.length "")),
             rtc.styling⟩ := by
      unfold multicolumn_prescriptive_renderer
      simp only [List.length_cons, Nat.add_sub_cancel]
      rw [hloop "" _, hlast, hpyint]
    refine ⟨_, hr, ?_, ?_⟩
    · simp only [List.length_cons]
      rw [← range_fold_comma cs.length]
      rfl
    · intro i hi
      simp only [List.length_cons] at hi
      by_cases hieq : i = cs.length
      · subst hieq
        rw [dict_get_set_self, hgetD _ (by simp)]
      · have hlt : i < cs.length := by omega
        rw [dict_get_set_ne _ _ _ _ (fun he => hieq (column_list_key_inj he)),
          dict_get_foldl_cols (c0 :: cs) cs.length _ i hlt,
          hgetD _ (by simp [Nat.lt_succ_of_lt hlt])]
  | some m =>
    have hr : multicolumn_prescriptive_renderer ⟨some (c0 :: cs), st, some m⟩ r rtc
        = Except.ok
            ⟨"string_template",
             "Sum across columns "
               ++ ((List.range cs.length).foldl
                    (fun acc i => acc ++ "$column_list_" ++ pyStr i ++ ", ") ""
                  ++ "$column_list_" ++ pyStr cs.length)
               ++ " must be $sum_total" ++ ", at least $mostly_pct % of the time"
               ++ ".",
             dict_set
               ((List.range cs.length).foldl
                 (fun acc j => dict_set acc ("column_list_" ++ pyStr j)
                   (PValue.str ((c0 :: cs).getD j "")))
                 (dict_set
                   [("column_list", PValue.strList (c0 :: cs)),
                    ("sum_total", opt_num st), ("mostly", opt_num (some m))]
                   "mostly_pct" (PValue.str (num_to_str (m * 100)))))
               ("column_list_" ++ pyStr cs.length)
               (PValue.str ((c0 :: cs).getD cs.length "")),
             rtc.styling⟩ := by
      unfold multicolumn_prescriptive_renderer
      simp only [List.length_cons, Nat.add_sub_cancel]
      rw [hloop "" _, hlast, hpyint]
    refine ⟨_, hr, ?_, ?_⟩
    · simp only [List.length_cons]
      rw [← range_fold_comma cs.length]
      rfl
    · intro i hi
      simp only [List.length_cons] at hi
      by_cases hieq : i = cs.length
      · subst hieq
        rw [dict_get_set_self, hgetD _ (by simp)]
      · have hlt : i < cs.length := by omega
        rw [dict_get_set_ne _ _ _ _ (fun he => hieq (column_list_key_inj he)),
          dict_get_foldl_cols (c0 :: cs) cs.length _ i hlt,
          hgetD _ (by simp [Nat.lt_succ_of_lt hlt])]

theorem multicolumn_renderer_column_list_witness :
    (["a", "b"] : List String) ≠ []
  ∧ ∃ c, multicolumn_prescriptive_renderer ⟨some ["a", "b"], some 3, none⟩ none
        ⟨none, none⟩ = Except.ok c
      ∧ c.template
          = "Sum across columns "
            ++ comma_join ((List.range (["a", "b"] : List String).length).map
                (fun i => "$column_list_" ++ pyStr i))
            ++ " must be $sum_total"
            ++ (if (none : Option ℚ).isSome then ", at least $mostly_pct % of the time"
                else "")
            ++ "."
      ∧ ∀ i (hi : i < (["a", "b"] : List String).length),
          dict_get c.params ("column_list_" ++ pyStr i)
            = some (PValue.str (["a", "b"] : List String)[i]) :=
  ⟨by decide,
   multicolumn_renderer_column_list ["a", "b"] (some 3) none none ⟨none, none⟩
     (by decide)⟩
